import Mathlib

/-
Verification of the SENTINEL-BOT early-signals core (shallow embedding).

Source files embedded:
  - PUMP_BONDING_MONITOR.PY : bonding-curve progress resolver (live WebSocket
    tier, short-term cache, Pump.fun API tier, Helius fallback, range scan).
  - EARLY_SIGNALS_MONITOR.PY : early-signal coordinator (token evaluation,
    processed-token set, conviction scorer, alert callback).

Modelling conventions: Python floats are modelled as rationals; Python dicts
keyed by token mint are association lists with first-match lookup; the
processed-token set is a Finset of strings; network effects (the HTTP call of
the Pump.fun tier) are an explicit outcome parameter covering every failure
mode the try/except blocks absorb; an exception caught and turned into a
None return is modelled as the none branch of the outcome.
-/

namespace SentinelBot

/-- Source constant GRADUATION_MCAP = 69000 (PUMP_BONDING_MONITOR.PY). -/
def GRADUATION_MCAP : ℚ := 69000

/-- Source constant MIN_EARLY_CONVICTION = 85 (EARLY_SIGNALS_MONITOR.PY). -/
def MIN_EARLY_CONVICTION : ℤ := 85

/-- Source constant: the resolver cache TTL, self.cache_ttl = 30 seconds. -/
def cache_ttl : ℚ := 30

/-- One entry of self.live_tokens, as written by _process_websocket_message:
mint, symbol, name, market_cap_usd, sol_amount, last_trade_timestamp,
last_updated. -/
structure LiveTokenData where
  mint : String
  symbol : String
  name : String
  market_cap_usd : ℚ
  sol_amount : ℚ
  last_trade_timestamp : Option ℚ
  last_updated : ℚ
deriving DecidableEq

/-- Resolver output dict: completion_percent, market_cap_usd, sol_raised,
holder_count, volume_24h, source.  The raw token_data echo attached by the
Pump.fun API tier is not carried: no consumer in the embedded code reads it. -/
structure CurveSnapshot where
  completion_percent : ℚ
  market_cap_usd : ℚ
  sol_raised : ℚ
  holder_count : ℤ
  volume_24h : ℚ
  source : String
deriving DecidableEq

/-- The fields of the Pump.fun coin JSON that the code reads via data.get;
a missing key defaults to 0 at the read site. -/
structure PumpfunCoinData where
  usd_market_cap : Option ℚ
  reply_count : Option ℤ
deriving DecidableEq

/-- Outcome of resp.json() inside _get_from_pumpfun_api: a decode exception
(caught by the try/except), a falsy payload (the `if not data` branch), or a
parsed coin object. -/
inductive JsonBody where
  | malformed : JsonBody
  | empty : JsonBody
  | ok : PumpfunCoinData → JsonBody
deriving DecidableEq

/-- Outcome of the HTTP GET inside _get_from_pumpfun_api: a timeout or
connection exception (caught by the try/except), or a status code with a
body. -/
inductive HttpOutcome where
  | timeout : HttpOutcome
  | status : ℕ → JsonBody → HttpOutcome
deriving DecidableEq

/-- The completion-percentage formula the source inlines at its three use
sites (live tier, Pump.fun API tier, range scan):
min((market_cap / GRADUATION_MCAP) * 100, 100). -/
def completionFromMcap (market_cap : ℚ) : ℚ :=
  if market_cap / GRADUATION_MCAP * 100 ≤ 100 then
    market_cap / GRADUATION_MCAP * 100
  else 100

/-- _get_from_pumpfun_api: non-200 status returns None; a json decode error
is caught and returns None; falsy data returns None; otherwise the snapshot
is built with usd_market_cap defaulting to 0, sol_raised = market_cap / 200,
holder_count = reply_count (default 0), volume_24h = 0, source
pumpfun_api. -/
def get_from_pumpfun_api (resp : HttpOutcome) : Option CurveSnapshot :=
  match resp with
  | HttpOutcome.timeout => none
  | HttpOutcome.status code body =>
      if code ≠ 200 then none
      else
        match body with
        | JsonBody.malformed => none
        | JsonBody.empty => none
        | JsonBody.ok d =>
            some { completion_percent := completionFromMcap (d.usd_market_cap.getD 0)
                 , market_cap_usd := d.usd_market_cap.getD 0
                 , sol_raised := d.usd_market_cap.getD 0 / 200
                 , holder_count := d.reply_count.getD 0
                 , volume_24h := 0
                 , source := "pumpfun_api" }

/-- _get_from_helius_fallback: returns None when HELIUS_API_KEY is empty, and
None in the not-implemented body as well. -/
def get_from_helius_fallback (helius_api_key : String) : Option CurveSnapshot :=
  if helius_api_key = "" then none
  else none

/-- The snapshot the live WebSocket tier of get_curve_progress builds from a
fresh live_tokens entry: holder_count and volume_24h are hard-coded 0
(not available from the WebSocket), source websocket_live. -/
def liveSnapshot (live_data : LiveTokenData) : CurveSnapshot :=
  { completion_percent := completionFromMcap live_data.market_cap_usd
  , market_cap_usd := live_data.market_cap_usd
  , sol_raised := live_data.sol_amount
  , holder_count := 0
  , volume_24h := 0
  , source := "websocket_live" }

/-- Mutable state of PumpBondingMonitor: the push-fed live_tokens map, the
token_cache of cached resolver outputs with their store timestamps, and the
HELIUS_API_KEY environment value. -/
structure PumpBondingMonitorState where
  live_tokens : List (String × LiveTokenData)
  token_cache : List (String × (CurveSnapshot × ℚ))
  helius_api_key : String
deriving DecidableEq

/-- Tier 1 of get_curve_progress: a live_tokens entry is usable only when
its age (now - last_updated) is under 60 seconds. -/
def lookupLiveFresh (live_tokens : List (String × LiveTokenData)) (now : ℚ)
    (token_mint : String) : Option CurveSnapshot :=
  match live_tokens.lookup token_mint with
  | some live_data =>
      if now - live_data.last_updated < 60 then some (liveSnapshot live_data)
      else none
  | none => none

/-- Tier 2 of get_curve_progress: a token_cache entry is usable only when its
age (now - timestamp) is under cache_ttl. -/
def lookupCacheFresh (token_cache : List (String × (CurveSnapshot × ℚ)))
    (now : ℚ) (token_mint : String) : Option CurveSnapshot :=
  match token_cache.lookup token_mint with
  | some entry => if now - entry.2 < cache_ttl then some entry.1 else none
  | none => none

/-- get_curve_progress: live WebSocket tier, then cache tier, then Pump.fun
API tier (whose success is written into token_cache), then the Helius
fallback.  Returns the snapshot (or none) together with the updated monitor
state. -/
def get_curve_progress (st : PumpBondingMonitorState) (now : ℚ)
    (token_mint : String) (api_resp : HttpOutcome) :
    Option CurveSnapshot × PumpBondingMonitorState :=
  match lookupLiveFresh st.live_tokens now token_mint with
  | some s => (some s, st)
  | none =>
      match lookupCacheFresh st.token_cache now token_mint with
      | some s => (some s, st)
      | none =>
          match get_from_pumpfun_api api_resp with
          | some curve_data =>
              (some curve_data,
               { st with token_cache :=
                   (token_mint, (curve_data, now)) ::
                     st.token_cache.filter (fun p => p.1 ≠ token_mint) })
          | none => (get_from_helius_fallback st.helius_api_key, st)

/-- One result row of get_cached_tokens_by_curve_range: completion percent,
market cap, symbol, source tag (the literal string websocket). -/
structure RangeScanEntry where
  completion_percent : ℚ
  market_cap_usd : ℚ
  symbol : String
  source : String
deriving DecidableEq

/-- get_cached_tokens_by_curve_range: scan over the live tier only, keeping
entries younger than max_age whose completion percentage lies inside
[min_pct, max_pct]. -/
def get_cached_tokens_by_curve_range (st : PumpBondingMonitorState)
    (now : ℚ) (min_pct max_pct : ℚ) (max_age : ℚ) :
    List (String × RangeScanEntry) :=
  st.live_tokens.filterMap (fun p =>
    let age := now - p.2.last_updated
    if age > max_age then none
    else
      let completion_pct := completionFromMcap p.2.market_cap_usd
      if min_pct ≤ completion_pct ∧ completion_pct ≤ max_pct then
        some (p.1, { completion_percent := completion_pct
                   , market_cap_usd := p.2.market_cap_usd
                   , symbol := p.2.symbol
                   , source := "websocket" })
      else none)

/-- The aggregated signal bundle handed to the scorer: per-kind payload lists
(smart_money, kols, telegram, twitter) and the aggregate signal_count, as
read via signal_data.get in _calculate_early_conviction. -/
structure SignalData where
  smart_money : List String
  kols : List String
  telegram : List String
  twitter : List String
  signal_count : ℕ
deriving DecidableEq

/-- Curve-position factor of _calculate_early_conviction: the if/elif chain
on completion_percent. -/
def curveScore (curve_pct : ℚ) : ℤ :=
  if curve_pct < 20 then 40
  else if curve_pct < 40 then 30
  else if curve_pct < 60 then 20
  else 10

/-- Smart-money factor: the if/elif chain on len(smart_money). -/
def smartMoneyScore (smart_money_count : ℕ) : ℤ :=
  if smart_money_count ≥ 3 then 50
  else if smart_money_count ≥ 2 then 40
  else if smart_money_count ≥ 1 then 30
  else 0

/-- KOL factor: the if/elif chain on len(kols). -/
def kolScore (kol_count : ℕ) : ℤ :=
  if kol_count ≥ 2 then 35
  else if kol_count ≥ 1 then 25
  else 0

/-- Social factor: the if/elif chain on len(telegram) + len(twitter). -/
def socialScore (social_total : ℕ) : ℤ :=
  if social_total ≥ 3 then 30
  else if social_total ≥ 2 then 20
  else if social_total ≥ 1 then 10
  else 0

/-- Convergence factor: the if/elif chain on signal_count. -/
def convergenceScore (signal_count : ℕ) : ℤ :=
  if signal_count ≥ 4 then 25
  else if signal_count ≥ 3 then 15
  else 0

/-- Volume factor: +15 when volume_24h exceeds 10000. -/
def volumeScore (volume_24h : ℚ) : ℤ :=
  if volume_24h > 10000 then 15 else 0

/-- Holder factor: the if/elif chain on holder_count. -/
def holderScore (holder_count : ℤ) : ℤ :=
  if holder_count > 100 then 10
  else if holder_count > 50 then 5
  else 0

/-- _calculate_early_conviction: score starts at 0 and each factor block adds
its single highest qualifying tier; the function returns the accumulated
score (the rationale strings are only logged, never returned). -/
def calculate_early_conviction (token_mint : String) (signal_data : SignalData)
    (curve_data : CurveSnapshot) : ℤ :=
  curveScore curve_data.completion_percent
    + smartMoneyScore signal_data.smart_money.length
    + kolScore signal_data.kols.length
    + socialScore (signal_data.telegram.length + signal_data.twitter.length)
    + convergenceScore signal_data.signal_count
    + volumeScore curve_data.volume_24h
    + holderScore curve_data.holder_count

/-- The invocation of self.signal_callback in the alert branch of
_evaluate_early_token: token, signal_type ultra_early, score, curve
completion, the signal bundle. -/
structure AlertCall where
  token_mint : String
  signal_type : String
  early_score : ℤ
  curve_completion : ℚ
  signal_data : SignalData
deriving DecidableEq

/-- _evaluate_early_token: absent curve data returns with no state change;
completion above 70 adds the token to processed_tokens and returns; otherwise
the score is computed, and only the alert branch (score at or above
MIN_EARLY_CONVICTION) adds the token to processed_tokens and invokes the
callback — the low-score branch only logs.  Result: the new processed set and
the callback invocation, if any. -/
def evaluate_early_token (processed_tokens : Finset String)
    (token_mint : String) (signal_data : SignalData) :
    Option CurveSnapshot → Finset String × Option AlertCall
  | none => (processed_tokens, none)
  | some cd =>
      if cd.completion_percent > 70 then (insert token_mint processed_tokens, none)
      else
        if calculate_early_conviction token_mint signal_data cd ≥
            MIN_EARLY_CONVICTION then
          (insert token_mint processed_tokens,
           some { token_mint := token_mint
                , signal_type := "ultra_early"
                , early_score := calculate_early_conviction token_mint signal_data cd
                , curve_completion := cd.completion_percent
                , signal_data := signal_data })
        else (processed_tokens, none)

/-- One hot token handled by the body of _aggregation_loop: tokens already in
processed_tokens are skipped, tokens the database has already seen are
skipped, and the rest go through _evaluate_early_token. -/
def aggregation_step (processed_tokens : Finset String) (db_has_seen : Bool)
    (token_mint : String) (signal_data : SignalData)
    (curve_data : Option CurveSnapshot) : Finset String × Option AlertCall :=
  if token_mint ∈ processed_tokens then (processed_tokens, none)
  else if db_has_seen then (processed_tokens, none)
  else evaluate_early_token processed_tokens token_mint signal_data curve_data

/-- Classifier for the pull-tier failure modes that the try/except blocks of
_get_from_pumpfun_api absorb: a timeout or connection exception, a non-200
status, a json decode exception, or a falsy payload. -/
def isApiFailure : HttpOutcome → Bool
  | HttpOutcome.timeout => true
  | HttpOutcome.status code body =>
      if code ≠ 200 then true
      else
        match body with
        | JsonBody.malformed => true
        | JsonBody.empty => true
        | JsonBody.ok _ => false

/-- Scenario A input bundle: 3 smart-money events, no KOLs, 1 Telegram call,
no Twitter calls, signal_count 4. -/
def scenarioA_signals : SignalData :=
  { smart_money := ["w1", "w2", "w3"], kols := [], telegram := ["tg1"]
  , twitter := [], signal_count := 4 }

/-- Scenario A curve snapshot: 15 percent completion, zero volume, zero
holders. -/
def scenarioA_curve : CurveSnapshot :=
  { completion_percent := 15, market_cap_usd := 10350, sol_raised := 51
  , holder_count := 0, volume_24h := 0, source := "websocket_live" }

/-- Scenario C input bundle: no smart money, no KOLs, 1 Telegram call, no
Twitter calls, signal_count 1. -/
def scenarioC_signals : SignalData :=
  { smart_money := [], kols := [], telegram := ["t1"], twitter := []
  , signal_count := 1 }

/-- Scenario C curve snapshot: 30 percent completion, zero volume, zero
holders. -/
def scenarioC_curve : CurveSnapshot :=
  { completion_percent := 30, market_cap_usd := 20700, sol_raised := 103
  , holder_count := 0, volume_24h := 0, source := "pumpfun_api" }

/-
Helper lemmas shared by the claim theorems.
-/

theorem lookupLiveFresh_eq_some (live_tokens : List (String × LiveTokenData))
    (now : ℚ) (token_mint : String) (live_data : LiveTokenData)
    (hlive : live_tokens.lookup token_mint = some live_data)
    (hfresh : now - live_data.last_updated < 60) :
    lookupLiveFresh live_tokens now token_mint = some (liveSnapshot live_data) := by
  unfold lookupLiveFresh
  rw [hlive]
  exact if_pos hfresh

theorem get_curve_progress_live (st : PumpBondingMonitorState) (now : ℚ)
    (token_mint : String) (api_resp : HttpOutcome) (live_data : LiveTokenData)
    (hlive : st.live_tokens.lookup token_mint = some live_data)
    (hfresh : now - live_data.last_updated < 60) :
    get_curve_progress st now token_mint api_resp =
      (some (liveSnapshot live_data), st) := by
  unfold get_curve_progress
  rw [lookupLiveFresh_eq_some st.live_tokens now token_mint live_data hlive hfresh]

theorem get_from_pumpfun_api_eq_none_of_failure (api_resp : HttpOutcome)
    (h : isApiFailure api_resp = true) : get_from_pumpfun_api api_resp = none := by
  cases api_resp with
  | timeout => rfl
  | status code body =>
      by_cases hc : code = 200
      · subst hc
        cases body with
        | malformed => rfl
        | empty => rfl
        | ok d => simp [isApiFailure] at h
      · simp only [get_from_pumpfun_api]
        rw [if_pos hc]

theorem curveScore_bounds (curve_pct : ℚ) :
    10 ≤ curveScore curve_pct ∧ curveScore curve_pct ≤ 40 := by
  unfold curveScore
  split_ifs <;> omega

theorem smartMoneyScore_bounds (n : ℕ) :
    0 ≤ smartMoneyScore n ∧ smartMoneyScore n ≤ 50 := by
  unfold smartMoneyScore
  split_ifs <;> omega

theorem kolScore_bounds (n : ℕ) : 0 ≤ kolScore n ∧ kolScore n ≤ 35 := by
  unfold kolScore
  split_ifs <;> omega

theorem socialScore_bounds (n : ℕ) : 0 ≤ socialScore n ∧ socialScore n ≤ 30 := by
  unfold socialScore
  split_ifs <;> omega

theorem convergenceScore_bounds (n : ℕ) :
    0 ≤ convergenceScore n ∧ convergenceScore n ≤ 25 := by
  unfold convergenceScore
  split_ifs <;> omega

theorem volumeScore_bounds (v : ℚ) : 0 ≤ volumeScore v ∧ volumeScore v ≤ 15 := by
  unfold volumeScore
  split_ifs <;> omega

theorem holderScore_bounds (h : ℤ) : 0 ≤ holderScore h ∧ holderScore h ≤ 10 := by
  unfold holderScore
  split_ifs <;> omega

/-
Claim theorems.
-/

/-- Claim C1, counterexample: with the scenario C inputs the curve lookup
succeeds with completion 30 (at most 70) and the score 40 is below
MIN_EARLY_CONVICTION, yet _evaluate_early_token leaves the processed set
empty — the REJECTED_LOW_SCORE outcome does not add the token to the
ProcessedSet, contradicting the claim. -/
theorem C1_counterexample :
    scenarioC_curve.completion_percent ≤ 70 ∧
      calculate_early_conviction "Z" scenarioC_signals scenarioC_curve <
        MIN_EARLY_CONVICTION ∧
      (evaluate_early_token ∅ "Z" scenarioC_signals (some scenarioC_curve)).1 =
        ∅ ∧
      "Z" ∉ (evaluate_early_token ∅ "Z" scenarioC_signals
        (some scenarioC_curve)).1 := by
  decide

/-- Claim C1, amended: for an evaluated token whose curve lookup succeeds
with completion at most 70, only the ALERTED outcome (score at least 85)
adds the token to the ProcessedSet — and once added, the aggregation loop
skips the token on every later pass.  The REJECTED_LOW_SCORE outcome
(score below 85) leaves the ProcessedSet unchanged and emits no alert, so
such a token stays eligible for re-evaluation. -/
theorem C1_amended (processed_tokens : Finset String) (token_mint : String)
    (sd : SignalData) (cd : CurveSnapshot) (db_has_seen : Bool)
    (sd2 : SignalData) (cd2 : Option CurveSnapshot)
    (hle : cd.completion_percent ≤ 70) :
    (calculate_early_conviction token_mint sd cd ≥ MIN_EARLY_CONVICTION →
        (evaluate_early_token processed_tokens token_mint sd (some cd)).1 =
            insert token_mint processed_tokens ∧
          (evaluate_early_token processed_tokens token_mint sd (some cd)).2 =
            some { token_mint := token_mint, signal_type := "ultra_early"
                 , early_score := calculate_early_conviction token_mint sd cd
                 , curve_completion := cd.completion_percent
                 , signal_data := sd } ∧
          aggregation_step
              (evaluate_early_token processed_tokens token_mint sd (some cd)).1
              db_has_seen token_mint sd2 cd2 =
            ((evaluate_early_token processed_tokens token_mint sd (some cd)).1,
              none)) ∧
    (calculate_early_conviction token_mint sd cd < MIN_EARLY_CONVICTION →
        evaluate_early_token processed_tokens token_mint sd (some cd) =
          (processed_tokens, none)) := by
  have hnot : ¬ cd.completion_percent > 70 := not_lt.mpr hle
  constructor
  · intro hscore
    have heval : evaluate_early_token processed_tokens token_mint sd (some cd) =
        (insert token_mint processed_tokens,
         some { token_mint := token_mint, signal_type := "ultra_early"
              , early_score := calculate_early_conviction token_mint sd cd
              , curve_completion := cd.completion_percent
              , signal_data := sd }) := by
      simp only [evaluate_early_token]
      rw [if_neg hnot, if_pos hscore]
    refine ⟨by rw [heval], by rw [heval], ?_⟩
    rw [heval]
    unfold aggregation_step
    rw [if_pos (Finset.mem_insert_self token_mint processed_tokens)]
  · intro hscore
    simp only [evaluate_early_token]
    rw [if_neg hnot, if_neg (not_le.mpr hscore)]

/-- Claim C1 amended, witness at the scenario C inputs. -/
theorem C1_amended_witness :
    scenarioC_curve.completion_percent ≤ 70 ∧
      calculate_early_conviction "Z" scenarioC_signals scenarioC_curve <
        MIN_EARLY_CONVICTION ∧
      evaluate_early_token ∅ "Z" scenarioC_signals (some scenarioC_curve) =
        (∅, none) :=
  ⟨by decide, by decide,
    (C1_amended ∅ "Z" scenarioC_signals scenarioC_curve false scenarioC_signals
        none (by decide)).2 (by decide)⟩

/-- Claim C3: a token whose curve lookup returns absent is not added to the
ProcessedSet and the coordinator state is unchanged with no alert emitted;
and as long as the token is not in the ProcessedSet, a later aggregation
pass (with the database still unaware of the token) evaluates it again
rather than skipping it. -/
theorem C3_absent_curve_retry (processed_tokens : Finset String)
    (token_mint : String) (sd : SignalData)
    (hnp : token_mint ∉ processed_tokens) :
    evaluate_early_token processed_tokens token_mint sd none =
        (processed_tokens, none) ∧
      (∀ (cd2 : Option CurveSnapshot) (sd2 : SignalData),
        aggregation_step processed_tokens false token_mint sd2 cd2 =
          evaluate_early_token processed_tokens token_mint sd2 cd2) := by
  refine ⟨rfl, ?_⟩
  intro cd2 sd2
  unfold aggregation_step
  rw [if_neg hnp]
  rfl

/-- Claim C3, witness at a concrete empty state. -/
theorem C3_absent_curve_retry_witness :
    "T3" ∉ (∅ : Finset String) ∧
      evaluate_early_token ∅ "T3" scenarioA_signals none = (∅, none) :=
  ⟨by decide, (C3_absent_curve_retry ∅ "T3" scenarioA_signals (by decide)).1⟩

/-- Claim C5: within the smart-money factor only the highest qualifying tier
applies — a bundle with 5 smart-money events scores exactly 50 more than the
same bundle with no smart-money events, not the tier sum 30 + 40 + 50. -/
theorem C5_tier_exclusivity (token_mint : String) (sd : SignalData)
    (cd : CurveSnapshot) (h5 : sd.smart_money.length = 5) :
    calculate_early_conviction token_mint sd cd =
      50 + calculate_early_conviction token_mint
        { sd with smart_money := [] } cd := by
  unfold calculate_early_conviction
  dsimp only
  rw [h5, List.length_nil]
  have ha : smartMoneyScore 5 = 50 := by decide
  have hb : smartMoneyScore 0 = 0 := by decide
  rw [ha, hb]
  ring

/-- Claim C5, witness at a concrete 5-event bundle. -/
theorem C5_tier_exclusivity_witness :
    (SignalData.mk ["a", "b", "c", "d", "e"] [] [] [] 5).smart_money.length =
        5 ∧
      calculate_early_conviction "T5"
          (SignalData.mk ["a", "b", "c", "d", "e"] [] [] [] 5)
          scenarioC_curve =
        50 + calculate_early_conviction "T5" (SignalData.mk [] [] [] [] 5)
          scenarioC_curve :=
  ⟨rfl, C5_tier_exclusivity "T5"
    (SignalData.mk ["a", "b", "c", "d", "e"] [] [] [] 5) scenarioC_curve rfl⟩

/-- Claim C6: scenario A (curve 15 percent, 3 smart-money events, 1 Telegram
call, no Twitter calls, no KOLs, signal_count 4, zero volume and holders)
scores exactly 125 = 40 + 50 + 10 + 25, which meets MIN_EARLY_CONVICTION, so
_evaluate_early_token invokes the alert callback with signal_type
ultra_early. -/
theorem C6_scenarioA :
    calculate_early_conviction "X" scenarioA_signals scenarioA_curve = 125 ∧
      calculate_early_conviction "X" scenarioA_signals scenarioA_curve ≥
        MIN_EARLY_CONVICTION ∧
      evaluate_early_token ∅ "X" scenarioA_signals (some scenarioA_curve) =
        ({"X"},
         some { token_mint := "X", signal_type := "ultra_early"
              , early_score := 125, curve_completion := 15
              , signal_data := scenarioA_signals }) := by
  decide

/-- Claim C7: the conviction score is monotone in the smart-money count —
with every other bundle field and the curve snapshot held fixed, a bundle
with 3 smart-money events scores at least as much as one with 1. -/
theorem C7_smart_money_monotone (token_mint : String) (sd : SignalData)
    (cd : CurveSnapshot) (s1 s3 : List String) (h1 : s1.length = 1)
    (h3 : s3.length = 3) :
    calculate_early_conviction token_mint { sd with smart_money := s1 } cd ≤
      calculate_early_conviction token_mint { sd with smart_money := s3 } cd := by
  unfold calculate_early_conviction
  dsimp only
  rw [h1, h3]
  have ha : smartMoneyScore 1 = 30 := by decide
  have hb : smartMoneyScore 3 = 50 := by decide
  rw [ha, hb]
  linarith

/-- Claim C7, witness at concrete 1-event and 3-event bundles. -/
theorem C7_smart_money_monotone_witness :
    (["a"] : List String).length = 1 ∧ (["a", "b", "c"] : List String).length = 3 ∧
      calculate_early_conviction "T7"
          { scenarioC_signals with smart_money := ["a"] } scenarioC_curve ≤
        calculate_early_conviction "T7"
          { scenarioC_signals with smart_money := ["a", "b", "c"] }
          scenarioC_curve :=
  ⟨rfl, rfl, C7_smart_money_monotone "T7" scenarioC_signals scenarioC_curve
    ["a"] ["a", "b", "c"] rfl rfl⟩

/-- Claim C9: for every input the conviction score lies between 10 (the
curve-position factor always contributes at least 10) and 205 (the sum of
every factor's maximum tier), with no explicit clamp applied. -/
theorem C9_score_bounds (token_mint : String) (sd : SignalData)
    (cd : CurveSnapshot) :
    10 ≤ calculate_early_conviction token_mint sd cd ∧
      calculate_early_conviction token_mint sd cd ≤ 205 := by
  obtain ⟨a1, a2⟩ := curveScore_bounds cd.completion_percent
  obtain ⟨b1, b2⟩ := smartMoneyScore_bounds sd.smart_money.length
  obtain ⟨c1, c2⟩ := kolScore_bounds sd.kols.length
  obtain ⟨d1, d2⟩ := socialScore_bounds (sd.telegram.length + sd.twitter.length)
  obtain ⟨e1, e2⟩ := convergenceScore_bounds sd.signal_count
  obtain ⟨f1, f2⟩ := volumeScore_bounds cd.volume_24h
  obtain ⟨g1, g2⟩ := holderScore_bounds cd.holder_count
  unfold calculate_early_conviction
  constructor <;> linarith

/-- Claim C2, counterexample: the completion formula clamps only from above.
A Pump.fun API payload reporting usd_market_cap = -69000 produces a snapshot
whose completion_percent is -100, strictly below 0, so the produced
completion percentage does not lie in the closed interval [0, 100] for every
market-cap input. -/
theorem C2_counterexample :
    (get_from_pumpfun_api (HttpOutcome.status 200
          (JsonBody.ok { usd_market_cap := some (-69000), reply_count := some 0 }))).map
        CurveSnapshot.completion_percent = some (-100) ∧
      ((-100 : ℚ) < 0) := by
  constructor
  · show (if (200 : ℕ) ≠ 200 then none
        else some { completion_percent := completionFromMcap ((-69000 : ℚ))
                  , market_cap_usd := ((-69000 : ℚ))
                  , sol_raised := ((-69000 : ℚ)) / 200
                  , holder_count := (0 : ℤ), volume_24h := 0
                  , source := "pumpfun_api" } : Option CurveSnapshot).map
        CurveSnapshot.completion_percent = some (-100)
    rw [if_neg (by norm_num)]
    show some (completionFromMcap (-69000)) = some (-100)
    unfold completionFromMcap GRADUATION_MCAP
    norm_num
  · norm_num

/-- Claim C2, amended: for every nonnegative market-cap input, the
completion percentage produced by the resolver formula lies in [0, 100] —
and the Pump.fun API tier snapshot carries exactly that value.  For an
arbitrary (possibly negative) market-cap input, only the upper bound 100 is
guaranteed: the formula min(mcap / GRADUATION_MCAP * 100, 100) has no lower
clamp. -/
theorem C2_amended (m : ℚ) (d : PumpfunCoinData) (hm : 0 ≤ m)
    (hd : d.usd_market_cap = some m) :
    0 ≤ completionFromMcap m ∧ completionFromMcap m ≤ 100 ∧
      (get_from_pumpfun_api (HttpOutcome.status 200 (JsonBody.ok d))).map
          CurveSnapshot.completion_percent = some (completionFromMcap m) ∧
      (∀ mc : ℚ, completionFromMcap mc ≤ 100) := by
  have hall : ∀ mc : ℚ, completionFromMcap mc ≤ 100 := by
    intro mc
    unfold completionFromMcap
    split_ifs with h
    · exact h
    · exact le_refl 100
  have h0 : 0 ≤ completionFromMcap m := by
    unfold completionFromMcap
    split_ifs with h
    · have hg : (0 : ℚ) < GRADUATION_MCAP := by norm_num [GRADUATION_MCAP]
      positivity
    · norm_num
  refine ⟨h0, hall m, ?_, hall⟩
  show (if (200 : ℕ) ≠ 200 then none
      else some { completion_percent := completionFromMcap (d.usd_market_cap.getD 0)
                , market_cap_usd := d.usd_market_cap.getD 0
                , sol_raised := d.usd_market_cap.getD 0 / 200
                , holder_count := d.reply_count.getD 0, volume_24h := 0
                , source := "pumpfun_api" } : Option CurveSnapshot).map
      CurveSnapshot.completion_percent = some (completionFromMcap m)
  rw [if_neg (by norm_num), hd]
  rfl

/-- Claim C2 amended, witness at market cap 138000 (double the graduation
threshold). -/
theorem C2_amended_witness :
    (0 : ℚ) ≤ 138000 ∧
      (PumpfunCoinData.mk (some 138000) (some 3)).usd_market_cap =
        some 138000 ∧
      0 ≤ completionFromMcap 138000 ∧ completionFromMcap 138000 ≤ 100 :=
  ⟨by decide, rfl,
    (C2_amended 138000 (PumpfunCoinData.mk (some 138000) (some 3)) (by decide)
        rfl).1,
    (C2_amended 138000 (PumpfunCoinData.mk (some 138000) (some 3)) (by decide)
        rfl).2.1⟩

/-- Claim C4: when the live tier holds an entry younger than 60 seconds for
the token, get_curve_progress returns the websocket_live snapshot built from
that entry, and the result does not depend on the cache contents, the API
outcome, or the Helius key — the pull tiers are never consulted. -/
theorem C4_websocket_live_priority (live : List (String × LiveTokenData))
    (cache cache2 : List (String × (CurveSnapshot × ℚ))) (key key2 : String)
    (now : ℚ) (token_mint : String) (api api2 : HttpOutcome)
    (live_data : LiveTokenData)
    (hlive : live.lookup token_mint = some live_data)
    (hfresh : now - live_data.last_updated < 60) :
    (get_curve_progress ⟨live, cache, key⟩ now token_mint api).1 =
        some (liveSnapshot live_data) ∧
      (liveSnapshot live_data).source = "websocket_live" ∧
      (get_curve_progress ⟨live, cache, key⟩ now token_mint api).1 =
        (get_curve_progress ⟨live, cache2, key2⟩ now token_mint api2).1 := by
  have h1 := get_curve_progress_live ⟨live, cache, key⟩ now token_mint api
    live_data hlive hfresh
  have h2 := get_curve_progress_live ⟨live, cache2, key2⟩ now token_mint api2
    live_data hlive hfresh
  exact ⟨by rw [h1], rfl, by rw [h1, h2]⟩

/-- Claim C4 witness input: a live-tier entry last updated at time 0. -/
def ldC4 : LiveTokenData :=
  { mint := "T4", symbol := "SYM", name := "Name", market_cap_usd := 6900
  , sol_amount := 10, last_trade_timestamp := none, last_updated := 0 }

/-- Claim C4, witness: at time 0 the entry has age 0 < 60 and the resolver
serves it with provenance websocket_live. -/
theorem C4_websocket_live_priority_witness :
    ([("T4", ldC4)].lookup "T4" = some ldC4) ∧
      ((0 : ℚ) - ldC4.last_updated < 60) ∧
      (get_curve_progress ⟨[("T4", ldC4)], [], ""⟩ 0 "T4"
          HttpOutcome.timeout).1 = some (liveSnapshot ldC4) ∧
      (liveSnapshot ldC4).source = "websocket_live" :=
  ⟨by decide, by norm_num [ldC4],
    (C4_websocket_live_priority [("T4", ldC4)] [] [] "" "" 0 "T4"
        HttpOutcome.timeout HttpOutcome.timeout ldC4 (by decide)
        (by norm_num [ldC4])).1,
    (C4_websocket_live_priority [("T4", ldC4)] [] [] "" "" 0 "T4"
        HttpOutcome.timeout HttpOutcome.timeout ldC4 (by decide)
        (by norm_num [ldC4])).2.1⟩

/-- Claim C8: with no live or cached entry for the token, every pull-tier
failure mode (timeout, non-200 status, malformed payload, empty payload)
makes the Pump.fun tier yield none, the Helius fallback yields none for
every key (missing key or unimplemented body), and get_curve_progress
returns the absent value none instead of propagating an error. -/
theorem C8_failures_yield_absent (st : PumpBondingMonitorState) (now : ℚ)
    (token_mint : String) (api : HttpOutcome)
    (hlive : st.live_tokens.lookup token_mint = none)
    (hcache : st.token_cache.lookup token_mint = none)
    (hapi : isApiFailure api = true) :
    (get_curve_progress st now token_mint api).1 = none ∧
      get_from_pumpfun_api api = none ∧
      (∀ key : String, get_from_helius_fallback key = none) := by
  have h1 : lookupLiveFresh st.live_tokens now token_mint = none := by
    unfold lookupLiveFresh
    rw [hlive]
  have h2 : lookupCacheFresh st.token_cache now token_mint = none := by
    unfold lookupCacheFresh
    rw [hcache]
  have h3 := get_from_pumpfun_api_eq_none_of_failure api hapi
  have h4 : ∀ key : String, get_from_helius_fallback key = none := by
    intro key
    unfold get_from_helius_fallback
    split <;> rfl
  refine ⟨?_, h3, h4⟩
  unfold get_curve_progress
  rw [h1, h2, h3]
  exact h4 st.helius_api_key

/-- Claim C8, witness: empty resolver state and a timed-out API call. -/
theorem C8_failures_yield_absent_witness :
    (([] : List (String × LiveTokenData)).lookup "T8" = none) ∧
      (([] : List (String × (CurveSnapshot × ℚ))).lookup "T8" = none) ∧
      isApiFailure HttpOutcome.timeout = true ∧
      (get_curve_progress ⟨[], [], ""⟩ 0 "T8" HttpOutcome.timeout).1 = none :=
  ⟨rfl, rfl, rfl,
    (C8_failures_yield_absent ⟨[], [], ""⟩ 0 "T8" HttpOutcome.timeout rfl rfl
        rfl).1⟩

/-- Claim C10: a snapshot served from the live WebSocket tier always carries
holder_count = 0 and volume_24h = 0, so the volume bonus and both
holder-count bonuses are 0 and the conviction score of such a snapshot is
exactly the sum of the remaining five factors. -/
theorem C10_live_tier_no_volume_holder_bonus (st : PumpBondingMonitorState)
    (now : ℚ) (token_mint : String) (api : HttpOutcome)
    (live_data : LiveTokenData)
    (hlive : st.live_tokens.lookup token_mint = some live_data)
    (hfresh : now - live_data.last_updated < 60) :
    (get_curve_progress st now token_mint api).1 =
        some (liveSnapshot live_data) ∧
      (liveSnapshot live_data).holder_count = 0 ∧
      (liveSnapshot live_data).volume_24h = 0 ∧
      volumeScore (liveSnapshot live_data).volume_24h = 0 ∧
      holderScore (liveSnapshot live_data).holder_count = 0 ∧
      (∀ (tok : String) (sd : SignalData),
        calculate_early_conviction tok sd (liveSnapshot live_data) =
          curveScore (liveSnapshot live_data).completion_percent
            + smartMoneyScore sd.smart_money.length
            + kolScore sd.kols.length
            + socialScore (sd.telegram.length + sd.twitter.length)
            + convergenceScore sd.signal_count) := by
  have h1 := get_curve_progress_live st now token_mint api live_data hlive
    hfresh
  have hv : volumeScore (liveSnapshot live_data).volume_24h = 0 := by
    show volumeScore 0 = 0
    decide
  have hh : holderScore (liveSnapshot live_data).holder_count = 0 := by
    show holderScore 0 = 0
    decide
  refine ⟨by rw [h1], rfl, rfl, hv, hh, ?_⟩
  intro tok sd
  unfold calculate_early_conviction
  rw [hv, hh]
  ring

/-- Claim C10 witness input: a live-tier entry last updated at time 0. -/
def ldC10 : LiveTokenData :=
  { mint := "TX", symbol := "SYM", name := "Name", market_cap_usd := 34500
  , sol_amount := 50, last_trade_timestamp := none, last_updated := 0 }

/-- Claim C10, witness: at time 0 the live entry is fresh and its snapshot
carries zero holder count and zero volume. -/
theorem C10_live_tier_no_volume_holder_bonus_witness :
    ([("TX", ldC10)].lookup "TX" = some ldC10) ∧
      ((0 : ℚ) - ldC10.last_updated < 60) ∧
      (liveSnapshot ldC10).holder_count = 0 ∧
      (liveSnapshot ldC10).volume_24h = 0 ∧
      volumeScore (liveSnapshot ldC10).volume_24h = 0 ∧
      holderScore (liveSnapshot ldC10).holder_count = 0 :=
  ⟨by decide, by norm_num [ldC10],
    (C10_live_tier_no_volume_holder_bonus ⟨[("TX", ldC10)], [], ""⟩ 0 "TX"
        HttpOutcome.timeout ldC10 (by decide) (by norm_num [ldC10])).2.1,
    (C10_live_tier_no_volume_holder_bonus ⟨[("TX", ldC10)], [], ""⟩ 0 "TX"
        HttpOutcome.timeout ldC10 (by decide) (by norm_num [ldC10])).2.2.1,
    (C10_live_tier_no_volume_holder_bonus ⟨[("TX", ldC10)], [], ""⟩ 0 "TX"
        HttpOutcome.timeout ldC10 (by decide) (by norm_num [ldC10])).2.2.2.1,
    (C10_live_tier_no_volume_holder_bonus ⟨[("TX", ldC10)], [], ""⟩ 0 "TX"
        HttpOutcome.timeout ldC10 (by decide) (by norm_num [ldC10])).2.2.2.2.1⟩

end SentinelBot
